import Mathlib

/-!
Shallow embedding of `edit_bench/evaluation.py` (the concurrent evaluation
engine of the editbench repository) together with theorems checking the
specification claims about it.

Conventions of the embedding:
* Python strings are Lean `String`s; low-level scanning (`str.split`,
  `str.strip`, substring membership) is modelled on `List Char` with the
  exact left-to-right non-overlapping scan Python performs.
* The filesystem side effects of each function are made explicit: the
  artifact store is a map `Nat → Option String` keyed by `problem_id`, and
  the sandbox root is a record of created `question_<id>` directories
  (keyed by id) plus written files keyed by `(id, relative path)`.
* Python exceptions are `Except`/`Option` values: an uncaught exception is
  an `error` result that aborts the surrounding loop, exactly where the
  Python `raise`/uncaught exception would.
* The thread pools run independent per-task jobs whose state footprints are
  disjoint; they are modelled as sequential folds over the task list.
* Python float scores are modelled as `ℚ`; `x / y` is guarded by the
  explicit `ZeroDivisionError` check that Python division performs.
-/

/-! ### Python string scanning primitives

`str.split(sep)` in Python cuts at every non-overlapping occurrence of
`sep`, scanning left to right.  `splitFirst sep s` returns the pieces
around the first such occurrence (`none` when `sep` does not occur), which
is enough to express the two uses in the source:
`s.split(sep)[-1]` (suffix after the last scanned occurrence, `afterLast`)
and `s.split(sep)[0]` (prefix before the first occurrence, `beforeFirst`).
The source never calls `split` with an empty separator (Python would raise
`ValueError`); `afterLast` carries a defensive size guard only to make the
recursion well-founded. -/

def splitFirst (sep : List Char) : List Char → Option (List Char × List Char)
  | [] => none
  | c :: rest =>
    if sep.isPrefixOf (c :: rest) then some ([], (c :: rest).drop sep.length)
    else
      match splitFirst sep rest with
      | none => none
      | some (a, r) => some (c :: a, r)

def afterLast (sep : List Char) (s : List Char) : List Char :=
  match splitFirst sep s with
  | none => s
  | some (_, r) => if h : r.length < s.length then afterLast sep r else r
termination_by s.length

def beforeFirst (sep : List Char) (s : List Char) : List Char :=
  match splitFirst sep s with
  | none => s
  | some (a, _) => a

/-- Whitespace set of Python `str.strip()`. -/
def pyIsSpace (c : Char) : Bool :=
  c = ' ' || c = '\t' || c = '\n' || c = '\r' || c = '\x0b' || c = '\x0c'

/-- Python `str.strip()` on the character list. -/
def pyStrip (s : List Char) : List Char :=
  ((s.dropWhile pyIsSpace).reverse.dropWhile pyIsSpace).reverse

/-- Python `needle in haystack` substring test. -/
def pyContains (needle haystack : String) : Bool :=
  needle.data.isEmpty || (splitFirst needle.data haystack.data).isSome

/-- Embedding of the implementation-unwrapping expression of
`create_question_folders` (evaluation.py lines 166/172/183):
`generated_code.split("```" + tag)[-1].split("```")[0].strip()`. -/
def extractImpl (tag : String) (text : String) : String :=
  ⟨pyStrip (beforeFirst "```".data (afterLast ("```".data ++ tag.data) text.data))⟩

/-! ### Data model shared by the stages -/

/-- One benchmark task, with exactly the dataset fields the core reads.
`test_harness` entries with `none` content mean "do not write". -/
structure Question where
  problem_id : Nat
  programming_language : String
  original_code : String
  highlighted_code : String
  instruction : String
  cursor_position : String
  test_code : String
  requirements : String
  python_version : String
  test_harness : List (String × Option String)
  pair_id : String
deriving DecidableEq, Repr

/-- The artifact store `gen_path`: one file per `problem_id`, raw text. -/
def ArtifactFS : Type := Nat → Option String

/-- Writing the artifact file for one task id. -/
def writeArtifact (id : Nat) (content : String) (fs : ArtifactFS) : ArtifactFS :=
  fun k => if k = id then some content else fs k

/-! ### GenerationStage (`generate_single_file` / `generate_files`)

The opaque external collaborators are passed in as pure functions: `fmt`
stands for `prompt_template.format(...)` applied to the task fields, and
`genFn` for the caller-supplied generation function, returning
`Except.error msg` where the Python callable would raise.  The thread pool
of `generate_files` runs jobs whose filesystem effects are per-`problem_id`
and is modelled as a sequential fold. -/

inductive GenStatus where
  | success
  | skipped
  | unsupported_language
  | error (msg : String)
deriving DecidableEq, Repr

/-- Embedding of `generate_single_file` (evaluation.py lines 21-50): skip
when the artifact file already exists, otherwise call the generation
function and write the file only for supported languages. -/
def generate_single_file (genFn : String → String → Except String String)
    (fmt : String → Question → String) (tmpl : String) (q : Question)
    (fs : ArtifactFS) : ArtifactFS × GenStatus :=
  if (fs q.problem_id).isSome then (fs, .skipped)
  else
    match genFn (fmt tmpl q) q.programming_language with
    | .error e => (fs, .error e)
    | .ok code =>
      if q.programming_language = "python" ∨ q.programming_language = "javascript"
          ∨ q.programming_language = "javascript/react" then
        (writeArtifact q.problem_id code fs, .success)
      else (fs, .unsupported_language)

/-- One scheduling step of `generate_files`: the `js_only` filter skips
python tasks before submission, otherwise the job runs
`generate_single_file`; only the artifact store state is threaded. -/
def generateStep (genFn : String → String → Except String String)
    (fmt : String → Question → String) (tmpl : String) (jsOnly : Bool)
    (fs : ArtifactFS) (q : Question) : ArtifactFS :=
  if jsOnly = true ∧ q.programming_language = "python" then fs
  else (generate_single_file genFn fmt tmpl q fs).1

/-- Embedding of the filesystem effect of `generate_files` (evaluation.py
lines 53-118): every non-filtered task is submitted once; result counting
and printing have no filesystem effect and are omitted. -/
def generate_files (genFn : String → String → Except String String)
    (fmt : String → Question → String) (tmpl : String) (jsOnly : Bool)
    (qs : List Question) (fs : ArtifactFS) : ArtifactFS :=
  qs.foldl (generateStep genFn fmt tmpl jsOnly) fs

/-! ### SandboxMaterializer (`create_question_folders`) -/

/-- State of the sandbox root `TEST_DIR`: `dirs` records which
`question_<id>` directories exist (keyed by id, the naming scheme being
injective), `files` the written files keyed by `(id, relative path)`,
latest write first. -/
structure SandboxFS where
  dirs : List Nat
  files : List ((Nat × String) × String)
deriving DecidableEq, Repr

/-- Python `mkdir(parents=True, exist_ok=True)` for `question_<id>`. -/
def mkdirQuestion (id : Nat) (fs : SandboxFS) : SandboxFS :=
  if id ∈ fs.dirs then fs else { fs with dirs := id :: fs.dirs }

/-- Writing a file at `question_<id>/<name>` (overwriting semantics:
lookups take the most recent write). -/
def writeF (id : Nat) (name content : String) (fs : SandboxFS) : SandboxFS :=
  { fs with files := ((id, name), content) :: fs.files }

/-- Lookup of a sandbox file by `(id, relative path)`. -/
def lookupFile (id : Nat) (name : String) (fs : SandboxFS) : Option String :=
  (fs.files.find? (fun p => p.1 = (id, name))).map (·.2)

/-- Errors that escape `create_question_folders`: the deliberate
`FileNotFoundError` raised when a generation artifact is missing. -/
inductive PyError where
  | fileNotFound (id : Nat)
deriving DecidableEq, Repr

/-- Harness loop of `create_question_folders` (evaluation.py lines
195-201): write every non-null harness entry at its relative path. -/
def writeHarness (q : Question) (fs : SandboxFS) : SandboxFS :=
  q.test_harness.foldl
    (fun acc p =>
      match p.2 with
      | none => acc
      | some content => writeF q.problem_id p.1 content acc) fs

/-- Hard-coded remediation of `create_question_folders` (evaluation.py
lines 203-206) for one known-bad task pair. -/
def patchKnownPair (q : Question) (fs : SandboxFS) : SandboxFS :=
  if q.pair_id = "b8451da4-d914-442a-9eb5-6982148c1cab" then
    writeF q.problem_id "app.py" "fastapp = \x7b\x7d" fs
  else fs

/-- Loop body of `create_question_folders` (evaluation.py lines 142-206)
for one task: `js_only` filter, `mkdir`, artifact existence check (raising
`FileNotFoundError` when absent), language-specific file writes with fence
unwrapping, harness writes, known-pair patch.  Unsupported languages hit
the final `continue` after the directory was already created. -/
def processQuestion (genfs : ArtifactFS) (jsOnly : Bool) (fs : SandboxFS)
    (q : Question) : SandboxFS × Option PyError :=
  if jsOnly = true ∧ q.programming_language = "python" then (fs, none)
  else
    let fs1 := mkdirQuestion q.problem_id fs
    match genfs q.problem_id with
    | none => (fs1, some (.fileNotFound q.problem_id))
    | some generated_code =>
      if q.programming_language = "python" then
        let fs2 := writeF q.problem_id "requirements.txt" q.requirements fs1
        let fs3 := writeF q.problem_id "test_code.py" q.test_code fs2
        let fs4 := writeF q.problem_id "original_code.py" q.original_code fs3
        let fs5 := writeF q.problem_id "implementation1.py"
          (extractImpl "python" generated_code) fs4
        (patchKnownPair q (writeHarness q fs5), none)
      else if q.programming_language = "javascript" then
        let fs2 := writeF q.problem_id "original_code.js" q.original_code fs1
        let fs3 := writeF q.problem_id "implementation1.js"
          (extractImpl "javascript" generated_code) fs2
        let fs4 := writeF q.problem_id "tests/test_code.test.js" q.test_code fs3
        (patchKnownPair q (writeHarness q fs4), none)
      else if q.programming_language = "javascript/react" then
        let fs2 := writeF q.problem_id "original_code.jsx" q.original_code fs1
        let fs3 := writeF q.problem_id "implementation1.jsx"
          (extractImpl "javascript" generated_code) fs2
        let fs4 := writeF q.problem_id "tests/test_code.test.js" q.test_code fs3
        (patchKnownPair q (writeHarness q fs4), none)
      else
        (fs1, none)

/-- Embedding of `create_question_folders` (evaluation.py lines 136-206).
The loop runs task by task; an uncaught `FileNotFoundError` aborts the
whole loop, keeping the sandbox state already built. -/
def create_question_folders (genfs : ArtifactFS) (jsOnly : Bool) :
    List Question → SandboxFS → SandboxFS × Option PyError
  | [], fs => (fs, none)
  | q :: rest, fs =>
    match processQuestion genfs jsOnly fs q with
    | (fs2, none) => create_question_folders genfs jsOnly rest fs2
    | (fs2, some e) => (fs2, some e)

/-! ### PipelineRunner (`run_sandbox_test` and the command tables) -/

/-- Embedding of `get_python_commands` (evaluation.py lines 252-264). -/
def get_python_commands (dir : String) (python_version : String) :
    List (List String) :=
  [["uv", "venv", "--python", python_version],
   ["uv", "pip", "install", "--python", dir ++ "/.venv/bin/python", "-r",
    dir ++ "/requirements.txt"],
   [dir ++ "/.venv/bin/python", "-m", "pytest", dir ++ "/test_code.py", "-v", "-s"],
   ["rm", "-rf", ".venv"]]

/-- Embedding of `get_javascript_commands` (evaluation.py lines 267-272). -/
def get_javascript_commands (_dir : String) : List (List String) :=
  [["npm", "install"], ["sleep", "1"], ["npm", "test"]]

/-- Command table chosen by the `if lang == ...` chain of
`run_sandbox_test` (evaluation.py lines 288-291); any other language
leaves the Python local `commands` unbound (`NameError`, `none` here). -/
def commandsFor (lang dir python_version : String) : Option (List (List String)) :=
  if lang = "python" then some (get_python_commands dir python_version)
  else if lang = "javascript" ∨ lang = "javascript/react" then
    some (get_javascript_commands dir)
  else none

/-- Behaviour of one `subprocess.run(..., check=False, timeout=...)` call:
either the process completed (with any return code; `check=False` never
raises on nonzero exit) or `subprocess.TimeoutExpired` was raised. -/
inductive CmdOutcome where
  | completed (returncode : Int) (stdout stderr : String)
  | timedOut
deriving DecidableEq, Repr

def CmdOutcome.isCompleted : CmdOutcome → Bool
  | .completed _ _ _ => true
  | .timedOut => false

/-- Record of one completed command, as kept in `command_outputs`. -/
structure CmdRecord where
  args : List String
  returncode : Int
  stdout : String
  stderr : String
deriving DecidableEq, Repr

/-- Message of Python `str(subprocess.TimeoutExpired)` for a command; the
exact argv rendering is irrelevant to the source, which only checks
whether the text contains "install", a property this rendering shares. -/
def timeoutMsg (cmd : List String) (timeout : Nat) : String :=
  "Command " ++ String.intercalate " " cmd ++ " timed out after "
    ++ toString timeout ++ " seconds"

/-- Command loop of `run_sandbox_test` (evaluation.py lines 296-314): run
each command in sequence; nonzero return codes do not stop the loop
(`check=False`), a timeout raises.  Returns the attempted commands (the
"Running command i" trace) and either all records or the exception. -/
def runCommands (timeout : Nat) (exec : List String → CmdOutcome) :
    List (List String) → List (List String) × Except String (List CmdRecord)
  | [] => ([], .ok [])
  | cmd :: rest =>
    match exec cmd with
    | .timedOut => ([cmd], .error (timeoutMsg cmd timeout))
    | .completed rc out err =>
      (cmd :: (runCommands timeout exec rest).1,
       (runCommands timeout exec rest).2.map (fun l => ⟨cmd, rc, out, err⟩ :: l))

/-- Content written to `test_stdout.txt` (evaluation.py lines 316-321). -/
def transcriptOf (outs : List CmdRecord) : String :=
  outs.foldl
    (fun acc o =>
      acc ++ "=== Command: " ++ String.intercalate " " o.args ++ " ===\n"
        ++ "=== Command output ===\n" ++ o.stdout ++ "\n"
        ++ (if o.stderr ≠ "" then "=== Command error ===\n" ++ o.stderr ++ "\n" else ""))
    ""

/-- Failure message of the `except` block of `run_sandbox_test`
(evaluation.py lines 334-347), distinguishing install failures by
substring inspection of the exception text. -/
def failureMsg (dir excText : String) : String :=
  if pyContains "install" excText then
    "Error installing dependencies in " ++ dir ++ ": " ++ excText
  else
    "failed running sandbox " ++ dir ++ ": " ++ excText

/-- Result of `run_sandbox_test` on one sandbox: the returned message, the
content of `test_stdout.txt` when it was written (`none` = file never
written), and the commands actually handed to `subprocess.run`.  The
`test_execution.log` trace is reflected by `attempted`. -/
structure SandboxRun where
  message : String
  stdoutFile : Option String
  attempted : List (List String)
deriving DecidableEq, Repr

/-- Message text of the `NameError` hit when the language matches no
branch and the local `commands` is unbound. -/
def nameErrorMsg : String := "name commands is not defined"

/-- Embedding of `run_sandbox_test` (evaluation.py lines 275-347).  The
whole body sits in a `try` whose `except Exception` converts any raised
exception (timeout, unbound `commands`) into a returned failure message;
`test_stdout.txt` is written only on the non-exception path, after the
command loop. -/
def run_sandbox_test (dir lang python_version : String)
    (exec : List String → CmdOutcome) (timeout : Nat := 600) : SandboxRun :=
  match commandsFor lang dir python_version with
  | none => { message := failureMsg dir nameErrorMsg, stdoutFile := none, attempted := [] }
  | some cmds =>
    match (runCommands timeout exec cmds).2 with
    | .ok outs =>
      { message := "Ran tests for " ++ dir, stdoutFile := some (transcriptOf outs),
        attempted := (runCommands timeout exec cmds).1 }
    | .error e =>
      { message := failureMsg dir e, stdoutFile := none,
        attempted := (runCommands timeout exec cmds).1 }

/-! ### ResultAggregator (`parse_results`) -/

/-- Counts block of one implementation inside `test_results.json`. -/
structure Counts where
  passed : Int
  failed : Int
  skipped : Int
  total : Int
deriving DecidableEq, Repr

/-- State of one sandbox's `test_results.json` as `parse_results` finds
it: absent (`FileNotFoundError`), present but not valid JSON
(`json.JSONDecodeError`), or parsed into the per-implementation counts
map; a missing "results" key behaves like a missing implementation key
(both lookups raise `KeyError`, caught by the same handler). -/
inductive OutcomeFile where
  | absent
  | malformed
  | parsed (results : List (String × Counts))
deriving DecidableEq, Repr

/-- Exceptions that can escape `parse_results`: `json.JSONDecodeError`
(not one of the two caught classes) and `ZeroDivisionError`. -/
inductive AggError where
  | jsonDecode
  | zeroDivision
deriving DecidableEq, Repr

/-- Decidable equality for `Except` results, used to evaluate the embedded
functions on concrete inputs. -/
instance {e a : Type} [DecidableEq e] [DecidableEq a] : DecidableEq (Except e a) :=
  fun x y =>
    match x, y with
    | .ok u, .ok v =>
      if h : u = v then isTrue (by rw [h]) else isFalse (by intro hc; injection hc; contradiction)
    | .error u, .error v =>
      if h : u = v then isTrue (by rw [h]) else isFalse (by intro hc; injection hc; contradiction)
    | .ok _, .error _ => isFalse (by intro hc; injection hc)
    | .error _, .ok _ => isFalse (by intro hc; injection hc)

/-- Per-sandbox score extraction of `parse_results` (evaluation.py lines
215-231): `FileNotFoundError` and `KeyError` degrade to `0.0`; a JSON
decode failure and a zero denominator raise. -/
def parse_single_result (f : OutcomeFile) : Except AggError ℚ :=
  match f with
  | .absent => .ok 0
  | .malformed => .error .jsonDecode
  | .parsed results =>
    match results.lookup "implementation1" with
    | none => .ok 0
    | some c =>
      if c.total + c.skipped = 0 then .error .zeroDivision
      else .ok ((c.passed : ℚ) / ((c.total : ℚ) + (c.skipped : ℚ)))

/-- Score value of one sandbox on the non-raising paths. -/
def scoreVal (f : OutcomeFile) : ℚ :=
  match parse_single_result f with
  | .ok v => v
  | .error _ => 0

/-- Scan loop of `parse_results` over the sandbox directories, in
directory-listing order; the first uncaught exception aborts the scan. -/
def collectScores : List (Nat × OutcomeFile) → Except AggError (List (Nat × ℚ))
  | [] => .ok []
  | (i, f) :: rest =>
    match parse_single_result f with
    | .error e => .error e
    | .ok v =>
      match collectScores rest with
      | .error e => .error e
      | .ok tail => .ok ((i, v) :: tail)

/-- Aggregate output of `parse_results`: per-sandbox scores keyed by the
`question_<id>` directory id, plus the two scalar keys the source adds to
the same JSON object. -/
structure Summary where
  scores : List (Nat × ℚ)
  pass_rate : ℚ
  average_test_rate : ℚ
deriving DecidableEq, Repr

/-- Embedding of `parse_results` (evaluation.py lines 208-249): scan every
sandbox directory, then compute `average = sum / n_tests` and
`pass_rate = num_perfect / n_tests`; with zero sandboxes the division
raises `ZeroDivisionError`. -/
def parse_results (sandboxes : List (Nat × OutcomeFile)) : Except AggError Summary :=
  match collectScores sandboxes with
  | .error e => .error e
  | .ok results =>
    let floats := results.map (·.2)
    let n := results.length
    if n = 0 then .error .zeroDivision
    else
      .ok { scores := results,
            pass_rate := ((floats.filter (· = 1)).length : ℚ) / (n : ℚ),
            average_test_rate := floats.sum / (n : ℚ) }

/-! ### Orchestration (`test_edits`) -/

/-- The three stage calls `test_edits` can perform. -/
inductive StageAction where
  | createFolders
  | runTests
  | parseResults
deriving DecidableEq, Repr

/-- Embedding of the control flow of `test_edits` (evaluation.py lines
123-134): when the output file exists, `len(data) > 0.9 * len(questions)`
short-circuits the whole flow (the float product `0.9 * n` is exact at all
relevant scales, so the comparison is `10 * len(data) > 9 * n`); otherwise
all three stages run.  `existingOutputLen` is `none` when the output file
does not exist, else the number of keys of its JSON object. -/
def test_edits (existingOutputLen : Option Nat) (numQuestions : Nat) :
    List StageAction :=
  match existingOutputLen with
  | some n =>
    if 10 * n > 9 * numQuestions then []
    else [.createFolders, .runTests, .parseResults]
  | none => [.createFolders, .runTests, .parseResults]

/-! ### Helper lemmas on the string scan -/

theorem isPrefixOf_true_iff (l s : List Char) :
    l.isPrefixOf s = true ↔ ∃ t, l ++ t = s := by
  induction l generalizing s with
  | nil => simp [List.isPrefixOf]
  | cons a as ih =>
    cases s with
    | nil => simp [List.isPrefixOf]
    | cons b bs =>
      simp only [List.isPrefixOf, Bool.and_eq_true, beq_iff_eq, ih]
      constructor
      · rintro ⟨rfl, t, rfl⟩
        exact ⟨t, rfl⟩
      · rintro ⟨t, ht⟩
        injection ht with h1 h2
        exact ⟨h1, t, h2⟩

theorem splitFirst_some_length (sep s a r : List Char)
    (h : splitFirst sep s = some (a, r)) :
    a.length + sep.length + r.length = s.length := by
  induction s generalizing a with
  | nil => simp [splitFirst] at h
  | cons c rest ih =>
    by_cases hp : sep.isPrefixOf (c :: rest) = true
    · rw [splitFirst, if_pos hp] at h
      obtain ⟨t, ht⟩ := (isPrefixOf_true_iff sep (c :: rest)).1 hp
      injection h with h1
      injection h1 with ha hr
      subst ha; subst hr
      have hlen : sep.length ≤ (c :: rest).length := by
        rw [← ht]; simp
      simp only [List.length_drop, List.length_nil, List.length_cons] at *
      omega
    · rw [splitFirst, if_neg hp] at h
      cases hsf : splitFirst sep rest with
      | none => rw [hsf] at h; simp at h
      | some p =>
        obtain ⟨a2, r2⟩ := p
        rw [hsf] at h
        simp at h
        obtain ⟨ha, hr⟩ := h
        subst hr
        have := ih a2 hsf
        subst ha
        simp
        omega

theorem splitFirst_some_lt (sep : List Char) (hsep : sep ≠ []) (s a r : List Char)
    (h : splitFirst sep s = some (a, r)) : r.length < s.length := by
  have h1 := splitFirst_some_length sep s a r h
  have h2 : 0 < sep.length := List.length_pos.2 hsep
  omega

theorem afterLast_of_none (sep s : List Char) (h : splitFirst sep s = none) :
    afterLast sep s = s := by
  rw [afterLast, h]

theorem afterLast_of_some (sep : List Char) (hsep : sep ≠ []) (s a r : List Char)
    (h : splitFirst sep s = some (a, r)) : afterLast sep s = afterLast sep r := by
  have hlt := splitFirst_some_lt sep hsep s a r h
  rw [afterLast, h]
  simp [hlt]

/-! ### Claim theorems: ResultAggregator -/

/-- Claim C1: for every sandbox whose outcome file parses and contains the
counts of `implementation1`, `parse_results` computes the per-task score
as `passed / (total + skipped)` (whenever that denominator is nonzero, the
only case in which Python computes a score at all). -/
theorem parse_results_score_formula (results : List (String × Counts)) (c : Counts)
    (h1 : results.lookup "implementation1" = some c)
    (h2 : c.total + c.skipped ≠ 0) :
    parse_single_result (.parsed results) =
      .ok ((c.passed : ℚ) / ((c.total : ℚ) + (c.skipped : ℚ))) := by
  simp [parse_single_result, h1, h2]

/-- Witness for C1 at the counts of the claim:
{passed := 3, failed := 1, skipped := 1, total := 5} scores 3/(5+1) = 1/2. -/
theorem parse_results_score_formula_witness :
    ([("implementation1", (⟨3, 1, 1, 5⟩ : Counts))].lookup "implementation1"
        = some (⟨3, 1, 1, 5⟩ : Counts))
    ∧ (⟨3, 1, 1, 5⟩ : Counts).total + (⟨3, 1, 1, 5⟩ : Counts).skipped ≠ 0
    ∧ parse_single_result (.parsed [("implementation1", ⟨3, 1, 1, 5⟩)])
        = .ok ((1 : ℚ) / 2) := by
  refine ⟨by decide, by decide, ?_⟩
  rw [parse_results_score_formula [("implementation1", ⟨3, 1, 1, 5⟩)] ⟨3, 1, 1, 5⟩
    (by decide) (by decide)]
  norm_num

/-- Claim C10: with no sandbox directories under the sandbox root,
`parse_results` raises `ZeroDivisionError` (the `sum / n_tests` division
with `n_tests = 0`) instead of producing an empty summary. -/
theorem parse_results_empty_raises :
    parse_results ([] : List (Nat × OutcomeFile)) = .error .zeroDivision := rfl

/-- Scan lemma: when no sandbox raises, `collectScores` returns one score
per sandbox, in order. -/
theorem collectScores_ok (l : List (Nat × OutcomeFile))
    (h : ∀ p ∈ l, parse_single_result p.2 = .ok (scoreVal p.2)) :
    collectScores l = .ok (l.map (fun p => (p.1, scoreVal p.2))) := by
  induction l with
  | nil => rfl
  | cons p rest ih =>
    obtain ⟨i, f⟩ := p
    have hp := h (i, f) (List.mem_cons_self _ _)
    rw [List.map_cons]
    rw [collectScores, hp, ih (fun q hq => h q (List.mem_cons_of_mem _ hq))]

/-- Claim C2 (amended): when every scanned sandbox has an outcome file
that is either absent or parses with a well-defined score, aggregation
succeeds with exactly one score entry per sandbox directory, and a sandbox
whose per-task extraction degrades to `0.0` (absent file, missing key)
keeps its `0.0` entry; an absent outcome file always degrades to `0.0`. -/
theorem parse_results_one_entry_per_sandbox (sandboxes : List (Nat × OutcomeFile))
    (hne : sandboxes ≠ [])
    (hok : ∀ p ∈ sandboxes, parse_single_result p.2 = .ok (scoreVal p.2)) :
    ∃ s, parse_results sandboxes = .ok s
      ∧ s.scores.map Prod.fst = sandboxes.map Prod.fst
      ∧ (∀ i f, (i, f) ∈ sandboxes → parse_single_result f = .ok 0 →
          (i, (0 : ℚ)) ∈ s.scores)
      ∧ parse_single_result .absent = .ok 0 := by
  have hc := collectScores_ok sandboxes hok
  have hlen : (sandboxes.map (fun p => (p.1, scoreVal p.2))).length ≠ 0 := by
    intro hcon
    rw [List.length_map] at hcon
    exact hne (List.length_eq_zero.mp hcon)
  refine ⟨{ scores := sandboxes.map (fun p => (p.1, scoreVal p.2)),
            pass_rate := ((((sandboxes.map (fun p => (p.1, scoreVal p.2))).map (·.2)).filter
              (· = 1)).length : ℚ) / ((sandboxes.map (fun p => (p.1, scoreVal p.2))).length : ℚ),
            average_test_rate := ((sandboxes.map (fun p => (p.1, scoreVal p.2))).map (·.2)).sum /
              ((sandboxes.map (fun p => (p.1, scoreVal p.2))).length : ℚ) }, ?_, ?_, ?_, rfl⟩
  · rw [parse_results, hc]
    simp only [if_neg hlen]
  · simp [List.map_map, Function.comp]
  · intro i f hmem h0
    have hv : scoreVal f = 0 := by rw [scoreVal, h0]
    exact List.mem_map.2 ⟨(i, f), hmem, by simp [hv]⟩

/-- Witness for C2 (amended): two sandboxes, one absent outcome and one
fully parsed outcome, aggregate into one entry each. -/
theorem parse_results_one_entry_per_sandbox_witness :
    ([((1 : Nat), OutcomeFile.absent),
      (2, .parsed [("implementation1", ⟨3, 1, 1, 5⟩)])] ≠ [])
    ∧ (∀ p ∈ [((1 : Nat), OutcomeFile.absent),
        (2, .parsed [("implementation1", ⟨3, 1, 1, 5⟩)])],
        parse_single_result p.2 = .ok (scoreVal p.2))
    ∧ ∃ s, parse_results [((1 : Nat), OutcomeFile.absent),
        (2, .parsed [("implementation1", ⟨3, 1, 1, 5⟩)])] = .ok s
      ∧ s.scores.map Prod.fst = [1, 2]
      ∧ (∀ i f, (i, f) ∈ [((1 : Nat), OutcomeFile.absent),
          (2, .parsed [("implementation1", ⟨3, 1, 1, 5⟩)])] →
          parse_single_result f = .ok 0 → (i, (0 : ℚ)) ∈ s.scores)
      ∧ parse_single_result .absent = .ok 0 :=
  ⟨by decide, by intro p hp; fin_cases hp <;> rfl,
    parse_results_one_entry_per_sandbox _ (by decide)
      (by intro p hp; fin_cases hp <;> rfl)⟩

/-- Counterexample to C2 as stated: a sandbox whose outcome file is
present but malformed (invalid JSON) raises `json.JSONDecodeError`, which
is caught by neither `except` clause, so aggregation aborts instead of
scoring that sandbox `0.0` and continuing with the rest. -/
theorem parse_results_malformed_aborts :
    parse_results [((1 : Nat), OutcomeFile.parsed [("implementation1", ⟨3, 1, 1, 5⟩)]),
        (2, .malformed)]
      = .error .jsonDecode := by decide

/-! ### Claim theorems: idempotent short-circuit of `test_edits` -/

/-- Counterexample to C5 as stated: an existing output file covering
exactly 90% of a 100-task split (90 entries) does not short-circuit;
`90 > 0.9 * 100` is false, so all three stages run again. -/
theorem test_edits_at_ninety_percent_runs :
    test_edits (some 90) 100 = [.createFolders, .runTests, .parseResults]
    ∧ test_edits (some 90) 100 ≠ ([] : List StageAction) := by decide

/-- Claim C5 (amended): the short-circuit requires the existing output
file to cover strictly more than 90% of the split (at least 91 entries for
a 100-task split); then no stage runs. -/
theorem test_edits_strict_threshold_skips (n numQuestions : Nat)
    (h : 10 * n > 9 * numQuestions) :
    test_edits (some n) numQuestions = [] := by
  simp [test_edits, h]

/-- Witness for C5 (amended) at 91 entries over 100 tasks. -/
theorem test_edits_strict_threshold_skips_witness :
    10 * 91 > 9 * 100 ∧ test_edits (some 91) 100 = [] :=
  ⟨by decide, test_edits_strict_threshold_skips 91 100 (by decide)⟩

/-! ### Claim theorems: GenerationStage idempotence -/

/-- Monotonicity of one generation step: an existing artifact file is
never removed or overwritten. -/
theorem generateStep_mono (genFn : String → String → Except String String)
    (fmt : String → Question → String) (tmpl : String) (jsOnly : Bool)
    (fs : ArtifactFS) (q : Question) (k : Nat) (c : String) (h : fs k = some c) :
    generateStep genFn fmt tmpl jsOnly fs q k = some c := by
  unfold generateStep generate_single_file
  by_cases hf : jsOnly = true ∧ q.programming_language = "python"
  · simp [hf, h]
  · simp only [if_neg hf]
    by_cases hex : (fs q.problem_id).isSome
    · simp [hex, h]
    · simp only [hex, Bool.false_eq_true, if_false]
      cases genFn (fmt tmpl q) q.programming_language with
      | error e => simp [h]
      | ok code =>
        by_cases hl : q.programming_language = "python"
            ∨ q.programming_language = "javascript"
            ∨ q.programming_language = "javascript/react"
        · simp only [hl, if_true, writeArtifact]
          by_cases hk : k = q.problem_id
          · subst hk
            rw [h] at hex
            simp at hex
          · simp [hk, h]
        · simp [hl, h]

/-- Monotonicity of the whole generation stage. -/
theorem generate_files_mono (genFn : String → String → Except String String)
    (fmt : String → Question → String) (tmpl : String) (jsOnly : Bool)
    (qs : List Question) (fs : ArtifactFS) (k : Nat) (c : String)
    (h : fs k = some c) :
    generate_files genFn fmt tmpl jsOnly qs fs k = some c := by
  induction qs generalizing fs with
  | nil => exact h
  | cons q l ih =>
    exact ih (generateStep genFn fmt tmpl jsOnly fs q)
      (generateStep_mono genFn fmt tmpl jsOnly fs q k c h)

/-- Case lemma: the step is a no-op under the `js_only` filter. -/
theorem generateStep_filtered (genFn : String → String → Except String String)
    (fmt : String → Question → String) (tmpl : String) (jsOnly : Bool)
    (fs : ArtifactFS) (q : Question)
    (hf : jsOnly = true ∧ q.programming_language = "python") :
    generateStep genFn fmt tmpl jsOnly fs q = fs := by
  simp [generateStep, hf]

/-- Case lemma: an existing artifact makes the step a no-op (skip). -/
theorem generateStep_skip (genFn : String → String → Except String String)
    (fmt : String → Question → String) (tmpl : String) (jsOnly : Bool)
    (fs : ArtifactFS) (q : Question) (h : (fs q.problem_id).isSome = true) :
    generateStep genFn fmt tmpl jsOnly fs q = fs := by
  unfold generateStep generate_single_file
  by_cases hf : jsOnly = true ∧ q.programming_language = "python" <;> simp [hf, h]

/-- Case lemma: a failing generation call writes nothing. -/
theorem generateStep_error (genFn : String → String → Except String String)
    (fmt : String → Question → String) (tmpl : String) (jsOnly : Bool)
    (fs : ArtifactFS) (q : Question) (e : String) (h : fs q.problem_id = none)
    (hg : genFn (fmt tmpl q) q.programming_language = .error e) :
    generateStep genFn fmt tmpl jsOnly fs q = fs := by
  unfold generateStep generate_single_file
  by_cases hf : jsOnly = true ∧ q.programming_language = "python" <;> simp [hf, h, hg]

/-- Case lemma: an unsupported language writes nothing. -/
theorem generateStep_unsupported (genFn : String → String → Except String String)
    (fmt : String → Question → String) (tmpl : String) (jsOnly : Bool)
    (fs : ArtifactFS) (q : Question) (code : String) (h : fs q.problem_id = none)
    (hg : genFn (fmt tmpl q) q.programming_language = .ok code)
    (hl : ¬(q.programming_language = "python" ∨ q.programming_language = "javascript"
        ∨ q.programming_language = "javascript/react")) :
    generateStep genFn fmt tmpl jsOnly fs q = fs := by
  unfold generateStep generate_single_file
  by_cases hf : jsOnly = true ∧ q.programming_language = "python" <;> simp [hf, h, hg, hl]

/-- Case lemma: a successful generation for a supported language writes
the artifact file. -/
theorem generateStep_success (genFn : String → String → Except String String)
    (fmt : String → Question → String) (tmpl : String) (jsOnly : Bool)
    (fs : ArtifactFS) (q : Question) (code : String) (h : fs q.problem_id = none)
    (hg : genFn (fmt tmpl q) q.programming_language = .ok code)
    (hl : q.programming_language = "python" ∨ q.programming_language = "javascript"
        ∨ q.programming_language = "javascript/react")
    (hf : ¬(jsOnly = true ∧ q.programming_language = "python")) :
    generateStep genFn fmt tmpl jsOnly fs q = writeArtifact q.problem_id code fs := by
  unfold generateStep generate_single_file
  simp [hf, h, hg, hl]

/-- Re-running one task's generation job after the rest of a stage pass is
a no-op on the artifact store. -/
theorem generateStep_fold_fix (genFn : String → String → Except String String)
    (fmt : String → Question → String) (tmpl : String) (jsOnly : Bool)
    (l : List Question) (q : Question) (s : ArtifactFS) :
    generateStep genFn fmt tmpl jsOnly
        (generate_files genFn fmt tmpl jsOnly l (generateStep genFn fmt tmpl jsOnly s q)) q
      = generate_files genFn fmt tmpl jsOnly l (generateStep genFn fmt tmpl jsOnly s q) := by
  by_cases hf : jsOnly = true ∧ q.programming_language = "python"
  · rw [generateStep_filtered genFn fmt tmpl jsOnly _ q hf]
  · by_cases hex : (s q.problem_id).isSome = true
    · obtain ⟨c, hc⟩ := Option.isSome_iff_exists.mp hex
      rw [generateStep_skip genFn fmt tmpl jsOnly s q hex]
      have hT := generate_files_mono genFn fmt tmpl jsOnly l s q.problem_id c hc
      exact generateStep_skip genFn fmt tmpl jsOnly _ q (by rw [hT]; rfl)
    · have hnone : s q.problem_id = none := Option.not_isSome_iff_eq_none.mp hex
      cases hg : genFn (fmt tmpl q) q.programming_language with
      | ok code =>
        by_cases hl : q.programming_language = "python"
            ∨ q.programming_language = "javascript"
            ∨ q.programming_language = "javascript/react"
        · rw [generateStep_success genFn fmt tmpl jsOnly s q code hnone hg hl hf]
          have hw : writeArtifact q.problem_id code s q.problem_id = some code := by
            simp [writeArtifact]
          have hT := generate_files_mono genFn fmt tmpl jsOnly l
            (writeArtifact q.problem_id code s) q.problem_id code hw
          exact generateStep_skip genFn fmt tmpl jsOnly _ q (by rw [hT]; rfl)
        · rw [generateStep_unsupported genFn fmt tmpl jsOnly s q code hnone hg hl]
          cases hT : generate_files genFn fmt tmpl jsOnly l s q.problem_id with
          | some c2 =>
            exact generateStep_skip genFn fmt tmpl jsOnly _ q (by rw [hT]; rfl)
          | none =>
            exact generateStep_unsupported genFn fmt tmpl jsOnly _ q code hT hg hl
      | error e =>
        rw [generateStep_error genFn fmt tmpl jsOnly s q e hnone hg]
        cases hT : generate_files genFn fmt tmpl jsOnly l s q.problem_id with
        | some c2 =>
          exact generateStep_skip genFn fmt tmpl jsOnly _ q (by rw [hT]; rfl)
        | none =>
          exact generateStep_error genFn fmt tmpl jsOnly _ q e hT hg

/-- Running the generation stage twice is the same as running it once. -/
theorem generate_files_idem (genFn : String → String → Except String String)
    (fmt : String → Question → String) (tmpl : String) (jsOnly : Bool)
    (qs : List Question) (fs : ArtifactFS) :
    generate_files genFn fmt tmpl jsOnly qs (generate_files genFn fmt tmpl jsOnly qs fs)
      = generate_files genFn fmt tmpl jsOnly qs fs := by
  induction qs generalizing fs with
  | nil => rfl
  | cons q l ih =>
    show generate_files genFn fmt tmpl jsOnly l
        (generateStep genFn fmt tmpl jsOnly
          (generate_files genFn fmt tmpl jsOnly l (generateStep genFn fmt tmpl jsOnly fs q)) q)
      = generate_files genFn fmt tmpl jsOnly l (generateStep genFn fmt tmpl jsOnly fs q)
    rw [generateStep_fold_fix]
    exact ih (generateStep genFn fmt tmpl jsOnly fs q)

/-- Claim C4: a task whose artifact file exists is reported `skipped` and
its artifact is untouched; consequently a second full run of the
generation stage (same generation function, same template, same split)
changes nothing: the artifact set after two runs equals the set after
one run, every existing file byte-identical. -/
theorem generation_skip_and_idempotent (genFn : String → String → Except String String)
    (fmt : String → Question → String) (tmpl : String) (jsOnly : Bool)
    (qs : List Question) (fs : ArtifactFS) (q : Question) (c : String)
    (h : fs q.problem_id = some c) :
    generate_single_file genFn fmt tmpl q fs = (fs, .skipped)
    ∧ ∀ fs0 : ArtifactFS,
        generate_files genFn fmt tmpl jsOnly qs (generate_files genFn fmt tmpl jsOnly qs fs0)
          = generate_files genFn fmt tmpl jsOnly qs fs0 := by
  constructor
  · unfold generate_single_file
    simp [h]
  · intro fs0
    exact generate_files_idem genFn fmt tmpl jsOnly qs fs0

/-- Witness for C4: one python task with id 7 whose artifact already
exists is skipped and the stage is idempotent. -/
theorem generation_skip_and_idempotent_witness :
    ((fun k => if k = 7 then some "art" else none) : ArtifactFS)
        (Question.mk 7 "python" "" "" "" "" "" "" "" [] "").problem_id = some "art"
    ∧ generate_single_file (fun _ _ => .ok "gen") (fun t _ => t) "tmpl"
        (Question.mk 7 "python" "" "" "" "" "" "" "" [] "")
        ((fun k => if k = 7 then some "art" else none) : ArtifactFS)
      = (((fun k => if k = 7 then some "art" else none) : ArtifactFS), .skipped)
    ∧ ∀ fs0 : ArtifactFS,
        generate_files (fun _ _ => .ok "gen") (fun t _ => t) "tmpl" false
            [Question.mk 7 "python" "" "" "" "" "" "" "" [] ""]
            (generate_files (fun _ _ => .ok "gen") (fun t _ => t) "tmpl" false
              [Question.mk 7 "python" "" "" "" "" "" "" "" [] ""] fs0)
          = generate_files (fun _ _ => .ok "gen") (fun t _ => t) "tmpl" false
              [Question.mk 7 "python" "" "" "" "" "" "" "" [] ""] fs0 := by
  have h := generation_skip_and_idempotent (fun _ _ => .ok "gen") (fun t _ => t)
    "tmpl" false [Question.mk 7 "python" "" "" "" "" "" "" "" [] ""]
    ((fun k => if k = 7 then some "art" else none) : ArtifactFS)
    (Question.mk 7 "python" "" "" "" "" "" "" "" [] "") "art" rfl
  exact ⟨rfl, h.1, h.2⟩

/-! ### Claim theorems: sandbox construction error handling -/

/-- Counterexample to C8 as stated: a task whose language is unsupported
("ruby") still gets its sandbox directory, because the `mkdir` runs before
the language dispatch; only the file writes are skipped. -/
theorem unsupported_language_builds_dir_cex :
    (create_question_folders (fun k => if k = 3 then some "code" else none) false
        [Question.mk 3 "ruby" "" "" "" "" "" "" "" [] ""] ⟨[], []⟩).1.dirs = [3]
    ∧ (3 : Nat) ∈ (create_question_folders (fun k => if k = 3 then some "code" else none)
        false [Question.mk 3 "ruby" "" "" "" "" "" "" "" [] ""] ⟨[], []⟩).1.dirs
    ∧ (create_question_folders (fun k => if k = 3 then some "code" else none) false
        [Question.mk 3 "ruby" "" "" "" "" "" "" "" [] ""] ⟨[], []⟩).1.files = []
    ∧ (create_question_folders (fun k => if k = 3 then some "code" else none) false
        [Question.mk 3 "ruby" "" "" "" "" "" "" "" [] ""] ⟨[], []⟩).2 = none := by
  decide

/-- Claim C8 (amended): for a task with an existing artifact whose
language is unsupported, sandbox construction logs and skips every file
write for the task — no source, test, harness or patch file is
materialized — but the task's sandbox directory itself has already been
created before the language check. -/
theorem unsupported_language_skips_files (genfs : ArtifactFS) (jsOnly : Bool)
    (fs : SandboxFS) (q : Question) (g : String)
    (hl : ¬(q.programming_language = "python" ∨ q.programming_language = "javascript"
        ∨ q.programming_language = "javascript/react"))
    (hg : genfs q.problem_id = some g) :
    processQuestion genfs jsOnly fs q = (mkdirQuestion q.problem_id fs, none)
    ∧ (mkdirQuestion q.problem_id fs).files = fs.files := by
  have h1 : q.programming_language ≠ "python" := fun hx => hl (Or.inl hx)
  have h2 : q.programming_language ≠ "javascript" := fun hx => hl (Or.inr (Or.inl hx))
  have h3 : q.programming_language ≠ "javascript/react" := fun hx => hl (Or.inr (Or.inr hx))
  constructor
  · have hf : ¬(jsOnly = true ∧ q.programming_language = "python") := fun hx => h1 hx.2
    unfold processQuestion
    simp [hf, hg, h1, h2, h3]
  · unfold mkdirQuestion
    by_cases hd : q.problem_id ∈ fs.dirs <;> simp [hd]

/-- Witness for C8 (amended) on a concrete "ruby" task with id 4. -/
theorem unsupported_language_skips_files_witness :
    (¬(("ruby" : String) = "python" ∨ ("ruby" : String) = "javascript"
        ∨ ("ruby" : String) = "javascript/react"))
    ∧ ((fun k => if k = 4 then some "g" else none) : ArtifactFS) 4 = some "g"
    ∧ processQuestion ((fun k => if k = 4 then some "g" else none) : ArtifactFS) false
        ⟨[], []⟩ (Question.mk 4 "ruby" "" "" "" "" "" "" "" [] "")
      = (mkdirQuestion 4 ⟨[], []⟩, none)
    ∧ (mkdirQuestion 4 (⟨[], []⟩ : SandboxFS)).files = (⟨[], []⟩ : SandboxFS).files := by
  have h := unsupported_language_skips_files
    ((fun k => if k = 4 then some "g" else none) : ArtifactFS) false ⟨[], []⟩
    (Question.mk 4 "ruby" "" "" "" "" "" "" "" [] "") "g" (by decide) rfl
  exact ⟨by decide, rfl, h.1, h.2⟩

/-- Counterexample to C9 as stated: with task 1 lacking its artifact and
task 2 having one, the `FileNotFoundError` raised for task 1 aborts the
whole loop — task 2 never gets a sandbox directory, so the hard stop is
not isolated to the failing task. -/
theorem missing_artifact_not_isolated_cex :
    create_question_folders (fun k => if k = 2 then some "x" else none) false
        [Question.mk 1 "python" "" "" "" "" "" "" "" [] "",
         Question.mk 2 "python" "" "" "" "" "" "" "" [] ""] ⟨[], []⟩
      = (⟨[1], []⟩, some (.fileNotFound 1))
    ∧ (2 : Nat) ∉ (create_question_folders (fun k => if k = 2 then some "x" else none)
        false [Question.mk 1 "python" "" "" "" "" "" "" "" [] "",
          Question.mk 2 "python" "" "" "" "" "" "" "" [] ""] ⟨[], []⟩).1.dirs := by
  decide

/-- Claim C9 (amended): a missing artifact raises `FileNotFoundError`,
which aborts sandbox construction for the failing task (its freshly
created, still-empty directory remains) and for every task after it in
the split; tasks processed before the failing one keep their sandboxes,
but construction for the remaining tasks does not take place. -/
theorem missing_artifact_aborts_rest (genfs : ArtifactFS) (fs : SandboxFS)
    (q : Question) (rest : List Question) (hq : genfs q.problem_id = none) :
    create_question_folders genfs false (q :: rest) fs
      = (mkdirQuestion q.problem_id fs, some (.fileNotFound q.problem_id)) := by
  unfold create_question_folders processQuestion
  simp [hq]

/-- Witness for C9 (amended): the loop on a missing-artifact head task
aborts before the second task is processed. -/
theorem missing_artifact_aborts_rest_witness :
    ((fun _ => none) : ArtifactFS) 5 = none
    ∧ create_question_folders ((fun _ => none) : ArtifactFS) false
        [Question.mk 5 "python" "" "" "" "" "" "" "" [] "",
         Question.mk 6 "python" "" "" "" "" "" "" "" [] ""] ⟨[], []⟩
      = (mkdirQuestion 5 ⟨[], []⟩, some (.fileNotFound 5)) :=
  ⟨rfl, missing_artifact_aborts_rest ((fun _ => none) : ArtifactFS) ⟨[], []⟩
    (Question.mk 5 "python" "" "" "" "" "" "" "" [] "")
    [Question.mk 6 "python" "" "" "" "" "" "" "" [] ""] rfl⟩

/-! ### Claim theorems: PipelineRunner -/

/-- When every command completes (with any return codes), the loop
attempts all of them in order and raises nothing. -/
theorem runCommands_all_completed (timeout : Nat) (exec : List String → CmdOutcome)
    (cmds : List (List String)) (h : ∀ c ∈ cmds, (exec c).isCompleted = true) :
    (runCommands timeout exec cmds).1 = cmds
    ∧ ∃ outs, (runCommands timeout exec cmds).2 = .ok outs := by
  induction cmds with
  | nil => exact ⟨rfl, [], rfl⟩
  | cons cmd rest ih =>
    have hc := h cmd (List.mem_cons_self _ _)
    cases hexec : exec cmd with
    | timedOut => rw [hexec] at hc; simp [CmdOutcome.isCompleted] at hc
    | completed rc out err =>
      obtain ⟨h1, outs, h2⟩ := ih (fun c hc2 => h c (List.mem_cons_of_mem _ hc2))
      refine ⟨?_, ⟨cmd, rc, out, err⟩ :: outs, ?_⟩
      · show (runCommands timeout exec (cmd :: rest)).1 = cmd :: rest
        rw [runCommands, hexec]
        simpa using h1
      · show (runCommands timeout exec (cmd :: rest)).2 = _
        rw [runCommands, hexec]
        simp only [h2, Except.map]

/-- When the commands before `c` complete and `c` times out, the loop
attempts exactly the prefix plus `c` and raises `TimeoutExpired`. -/
theorem runCommands_timeout_at (timeout : Nat) (exec : List String → CmdOutcome)
    (pre : List (List String)) (c : List String) (post : List (List String))
    (hpre : ∀ x ∈ pre, (exec x).isCompleted = true) (hc : exec c = .timedOut) :
    runCommands timeout exec (pre ++ c :: post)
      = (pre ++ [c], .error (timeoutMsg c timeout)) := by
  induction pre with
  | nil => simp [runCommands, hc]
  | cons x xs ih =>
    have hx := hpre x (List.mem_cons_self _ _)
    cases hexec : exec x with
    | timedOut => rw [hexec] at hx; simp [CmdOutcome.isCompleted] at hx
    | completed rc out err =>
      rw [List.cons_append, runCommands, hexec,
        ih (fun y hy => hpre y (List.mem_cons_of_mem _ hy))]
      simp [Except.map]

/-- Claim C6: within one sandbox pipeline (any supported language), a
nonzero return code never stops the pipeline — when no command times out,
every command in the ordered list is attempted and the runner returns the
success message — while a command exceeding the timeout aborts after the
commands already run, is caught, and is converted into the returned
failure message; `run_sandbox_test` is a total function into `SandboxRun`,
so no exception reaches its caller in either case. -/
theorem run_sandbox_test_no_abort_on_failure (dir lang python_version : String)
    (exec : List String → CmdOutcome) (timeout : Nat) (cmds : List (List String))
    (hc : commandsFor lang dir python_version = some cmds) :
    ((∀ c ∈ cmds, (exec c).isCompleted = true) →
      (run_sandbox_test dir lang python_version exec timeout).attempted = cmds
      ∧ (run_sandbox_test dir lang python_version exec timeout).message
          = "Ran tests for " ++ dir)
    ∧ (∀ pre c post, cmds = pre ++ c :: post →
        (∀ x ∈ pre, (exec x).isCompleted = true) → exec c = .timedOut →
        (run_sandbox_test dir lang python_version exec timeout).attempted = pre ++ [c]
        ∧ (run_sandbox_test dir lang python_version exec timeout).message
            = failureMsg dir (timeoutMsg c timeout)) := by
  constructor
  · intro hall
    obtain ⟨h1, outs, h2⟩ := runCommands_all_completed timeout exec cmds hall
    simp [run_sandbox_test, hc, h1, h2]
  · intro pre c post hsplit hpre htime
    have hrun := runCommands_timeout_at timeout exec pre c post hpre htime
    simp [run_sandbox_test, hc, hsplit, hrun]

/-- Witness for C6: a javascript sandbox whose three commands all exit
with the nonzero return code 1 still attempts all of them and returns the
success message. -/
theorem run_sandbox_test_no_abort_on_failure_witness :
    commandsFor "javascript" "sb" "3" = some (get_javascript_commands "sb")
    ∧ (∀ c ∈ get_javascript_commands "sb",
        (((fun _ => CmdOutcome.completed 1 "out" "err") : List String → CmdOutcome) c).isCompleted
          = true)
    ∧ (run_sandbox_test "sb" "javascript" "3" (fun _ => CmdOutcome.completed 1 "out" "err")
        180).attempted = get_javascript_commands "sb"
    ∧ (run_sandbox_test "sb" "javascript" "3" (fun _ => CmdOutcome.completed 1 "out" "err")
        180).message = "Ran tests for " ++ "sb" := by
  have h := (run_sandbox_test_no_abort_on_failure "sb" "javascript" "3"
    (fun _ => CmdOutcome.completed 1 "out" "err") 180
    (get_javascript_commands "sb") rfl).1 (by intro c hmem; rfl)
  exact ⟨rfl, by intro c hmem; rfl, h.1, h.2⟩

/-- Counterexample to C7 as stated: when the first command of a python
sandbox times out, the pipeline aborts on the exception and no
`test_stdout.txt` transcript is written at all — the `except` block only
appends to the execution log and returns the failure message. -/
theorem run_sandbox_test_timeout_no_transcript :
    (run_sandbox_test "sb" "python" "3.11" (fun _ => CmdOutcome.timedOut) 600).stdoutFile
      = none
    ∧ (run_sandbox_test "sb" "python" "3.11" (fun _ => CmdOutcome.timedOut) 600).message
      = failureMsg "sb" (timeoutMsg ["uv", "venv", "--python", "3.11"] 600) := by
  decide

/-- Claim C7 (amended): the consolidated stdout/stderr transcript is
written to `test_stdout.txt` only when the command sequence completes
without an exception; when a command times out, the run aborts on the
exception and no transcript file is written for that sandbox. -/
theorem run_sandbox_test_transcript_on_success (dir lang python_version : String)
    (exec : List String → CmdOutcome) (timeout : Nat) (cmds : List (List String))
    (hc : commandsFor lang dir python_version = some cmds) :
    ((∀ c ∈ cmds, (exec c).isCompleted = true) →
      ∃ outs, (run_sandbox_test dir lang python_version exec timeout).stdoutFile
        = some (transcriptOf outs))
    ∧ (∀ pre c post, cmds = pre ++ c :: post →
        (∀ x ∈ pre, (exec x).isCompleted = true) → exec c = .timedOut →
        (run_sandbox_test dir lang python_version exec timeout).stdoutFile = none) := by
  constructor
  · intro hall
    obtain ⟨h1, outs, h2⟩ := runCommands_all_completed timeout exec cmds hall
    refine ⟨outs, ?_⟩
    simp [run_sandbox_test, hc, h2]
  · intro pre c post hsplit hpre htime
    have hrun := runCommands_timeout_at timeout exec pre c post hpre htime
    simp [run_sandbox_test, hc, hsplit, hrun]

/-- Witness for C7 (amended): a javascript sandbox whose commands all
complete gets a transcript file. -/
theorem run_sandbox_test_transcript_on_success_witness :
    commandsFor "javascript" "sb2" "3" = some (get_javascript_commands "sb2")
    ∧ (∀ c ∈ get_javascript_commands "sb2",
        (((fun _ => CmdOutcome.completed 0 "ok" "") : List String → CmdOutcome) c).isCompleted
          = true)
    ∧ ∃ outs, (run_sandbox_test "sb2" "javascript" "3"
        (fun _ => CmdOutcome.completed 0 "ok" "") 180).stdoutFile
      = some (transcriptOf outs) := by
  have h := (run_sandbox_test_transcript_on_success "sb2" "javascript" "3"
    (fun _ => CmdOutcome.completed 0 "ok" "") 180
    (get_javascript_commands "sb2") rfl).1 (by intro c hmem; rfl)
  exact ⟨rfl, by intro c hmem; rfl, h⟩

/-! ### Claim theorems: fence unwrapping -/

/-- If a separator does not occur in a string, no extension of that
separator occurs either. -/
theorem splitFirst_none_of_shorter (sep1 sep2 s : List Char)
    (hpre : ∃ t, sep1 ++ t = sep2) (h : splitFirst sep1 s = none) :
    splitFirst sep2 s = none := by
  induction s with
  | nil => rfl
  | cons c rest ih =>
    rw [splitFirst] at h
    by_cases hp1 : sep1.isPrefixOf (c :: rest) = true
    · rw [if_pos hp1] at h
      simp at h
    · rw [if_neg hp1] at h
      have hrest : splitFirst sep1 rest = none := by
        cases hr : splitFirst sep1 rest with
        | none => rfl
        | some p =>
          obtain ⟨a, r⟩ := p
          rw [hr] at h
          simp at h
      have hp2 : ¬sep2.isPrefixOf (c :: rest) = true := by
        intro hx
        obtain ⟨t2, ht2⟩ := (isPrefixOf_true_iff sep2 (c :: rest)).1 hx
        obtain ⟨t, rfl⟩ := hpre
        apply hp1
        rw [isPrefixOf_true_iff]
        exact ⟨t ++ t2, by rw [← ht2]; simp⟩
      rw [splitFirst, if_neg hp2, ih hrest]

/-- Concrete evaluation: with two fenced `lang` blocks, the scan of
`split("```lang")[-1].split("```")[0].strip()` keeps the interior of the
last block. -/
theorem extract_impl_two_block_eval :
    extractImpl "lang" "intro ```lang\nA\n``` mid ```lang\ncode_body\n``` outro"
      = "code_body" := by
  unfold extractImpl
  rw [afterLast_of_some ("```".data ++ "lang".data) (by decide)
      ("intro ```lang\nA\n``` mid ```lang\ncode_body\n``` outro".data)
      ("intro ".data) ("\nA\n``` mid ```lang\ncode_body\n``` outro".data) (by decide)]
  rw [afterLast_of_some ("```".data ++ "lang".data) (by decide)
      ("\nA\n``` mid ```lang\ncode_body\n``` outro".data)
      ("\nA\n``` mid ".data) ("\ncode_body\n``` outro".data) (by decide)]
  rw [afterLast_of_none ("```".data ++ "lang".data) ("\ncode_body\n``` outro".data)
      (by decide)]
  decide

/-- Concrete evaluation: with a single fenced block the interior is kept,
stripped of surrounding whitespace. -/
theorem extract_impl_single_block_eval :
    extractImpl "lang" "intro ```lang\ncode_body\n``` outro" = "code_body" := by
  unfold extractImpl
  rw [afterLast_of_some ("```".data ++ "lang".data) (by decide)
      ("intro ```lang\ncode_body\n``` outro".data)
      ("intro ".data) ("\ncode_body\n``` outro".data) (by decide)]
  rw [afterLast_of_none ("```".data ++ "lang".data) ("\ncode_body\n``` outro".data)
      (by decide)]
  decide

/-- Counterexample to C3 as stated: with two fenced blocks matching the
language tag, the materialized implementation content is the interior of
the last block, not of the first block (whose interior is "A"). -/
theorem extract_impl_first_block_cex :
    extractImpl "lang" "intro ```lang\nA\n``` mid ```lang\ncode_body\n``` outro" ≠ "A"
    ∧ extractImpl "lang" "intro ```lang\nA\n``` mid ```lang\ncode_body\n``` outro"
      = "code_body" := by
  refine ⟨?_, extract_impl_two_block_eval⟩
  rw [extract_impl_two_block_eval]
  decide

/-- Claim C3 (amended): the generated text is unwrapped from the LAST
fenced block matching the language tag (interior before the next fence
marker, stripped of surrounding whitespace) — for a single fenced block
this is the block interior, as in the claim's example — and when no fence
marker occurs in the text at all, the raw text stripped of surrounding
whitespace is written. -/
theorem extract_impl_fence_unwrap (tag text : String)
    (hnf : splitFirst "```".data text.data = none) :
    extractImpl "lang" "intro ```lang\nA\n``` mid ```lang\ncode_body\n``` outro"
      = "code_body"
    ∧ extractImpl "lang" "intro ```lang\ncode_body\n``` outro" = "code_body"
    ∧ extractImpl tag text = (⟨pyStrip text.data⟩ : String)
    ∧ ∀ (id : Nat) (orig hl ins cur tc req pv g : String) (genfs : ArtifactFS),
        genfs id = some g →
        lookupFile id "implementation1.py"
            (processQuestion genfs false ⟨[], []⟩
              (Question.mk id "python" orig hl ins cur tc req pv [] "")).1
          = some (extractImpl "python" g) := by
  refine ⟨extract_impl_two_block_eval, extract_impl_single_block_eval, ?_, ?_⟩
  · have hfence : splitFirst ("```".data ++ tag.data) text.data = none :=
      splitFirst_none_of_shorter "```".data ("```".data ++ tag.data) text.data
        ⟨tag.data, rfl⟩ hnf
    unfold extractImpl
    rw [afterLast_of_none ("```".data ++ tag.data) text.data hfence]
    unfold beforeFirst
    rw [hnf]
  · intro id orig hl ins cur tc req pv g genfs hg
    simp [processQuestion, writeHarness, patchKnownPair, writeF, mkdirQuestion,
      lookupFile, List.find?, hg]

/-- Witness for C3 (amended) on fence-free text. -/
theorem extract_impl_fence_unwrap_witness :
    splitFirst "```".data "  plain text  ".data = none
    ∧ extractImpl "lang" "intro ```lang\nA\n``` mid ```lang\ncode_body\n``` outro"
      = "code_body"
    ∧ extractImpl "lang" "intro ```lang\ncode_body\n``` outro" = "code_body"
    ∧ extractImpl "python" "  plain text  " = (⟨pyStrip "  plain text  ".data⟩ : String)
    ∧ extractImpl "python" "  plain text  " = "plain text"
    ∧ ((fun k => if k = 9 then some "raw gen" else none) : ArtifactFS) 9 = some "raw gen"
    ∧ lookupFile 9 "implementation1.py"
        (processQuestion ((fun k => if k = 9 then some "raw gen" else none) : ArtifactFS)
          false ⟨[], []⟩ (Question.mk 9 "python" "o" "h" "i" "c" "t" "r" "p" [] "")).1
      = some (extractImpl "python" "raw gen") := by
  have h := extract_impl_fence_unwrap "python" "  plain text  " (by decide)
  refine ⟨by decide, h.1, h.2.1, h.2.2.1, ?_, rfl, ?_⟩
  · rw [h.2.2.1]
    decide
  · exact h.2.2.2 9 "o" "h" "i" "c" "t" "r" "p" "raw gen"
      ((fun k => if k = 9 then some "raw gen" else none) : ArtifactFS) rfl
